import Mathlib

/-!
Shallow embedding of the diabetes-readmission Streamlit app (`src/app.py`).

The app collects ten clinical form inputs, maps them to a 25-field feature
record (`map_inputs_to_features`), scores the record with an external model,
truncates the probability to an integer risk index (`int(prob * 100)`) and
buckets the index into a LOW / MEDIUM / HIGH tier with a fixed advisory
string.

Modelling choices:
- form inputs become the `ClinicalInput` structure; categorical selectbox
  values stay strings, numeric controls become integers;
- the Python dict lookup tables (`age_map`, `discharge_map`, `a1c_map`,
  `insulin_map`, `change_map`) become association lists searched with
  `List.lookup`; a missing key (Python `KeyError`) makes the encoder return
  `none`, so `map_inputs_to_features` returns `Option`;
- the produced single-row dataframe becomes an ordered list of
  (column name, value) pairs; a value is `FValue.num q` for a number and
  `FValue.str s` for a string (the source stores the raw age-bucket string
  in the "age" column, so the value type cannot be purely numeric);
- Python floats become rationals; `int(x)` (truncation toward zero) becomes
  `pyInt`.
-/

/-- A cell of the single-row dataframe built by `map_inputs_to_features`:
the source puts numbers in every column except "age", which receives the raw
selectbox string. -/
inductive FValue where
  | num : ℚ → FValue
  | str : String → FValue
deriving DecidableEq, Repr

/-- The ten form inputs of the Streamlit form (`app.py` lines 40-65). -/
structure ClinicalInput where
  age : String
  time_in_hospital : ℤ
  a1c : String
  primary_dx : ℤ
  num_meds : ℤ
  num_procedures : ℤ
  prior_inpatient : ℤ
  discharge : String
  medication_change : String
  insulin_status : String
deriving DecidableEq, Repr

/-- Options of the "Age Group" selectbox. -/
def ageDomain : List String :=
  ["[40-50)", "[50-60)", "[60-70)", "[70-80)", "[80-90)", "[90-100)"]

/-- Options of the "Recent A1C Result" selectbox. -/
def a1cDomain : List String := ["Norm", ">7", ">8"]

/-- Options of the "Discharge Disposition" selectbox. -/
def dischargeDomain : List String := ["Home", "Rehab", "Skilled Nursing", "Other"]

/-- Options of the "Medication Change During Visit?" selectbox. -/
def changeDomain : List String := ["Yes", "No"]

/-- Options of the "Current Insulin Use" selectbox. -/
def insulinDomain : List String := ["No", "Steady", "Up", "Down"]

/-- The categorical fields are members of their selectbox option sets. -/
def ValidCategorical (i : ClinicalInput) : Prop :=
  i.age ∈ ageDomain ∧ i.a1c ∈ a1cDomain ∧ i.discharge ∈ dischargeDomain ∧
    i.medication_change ∈ changeDomain ∧ i.insulin_status ∈ insulinDomain

instance (i : ClinicalInput) : Decidable (ValidCategorical i) := by
  unfold ValidCategorical; infer_instance

/-- All ten fields lie in their declared UI domains: the selectbox option
sets for the categorical fields and the slider / number-input bounds for the
numeric ones (`app.py` lines 43-63). -/
def ValidInput (i : ClinicalInput) : Prop :=
  ValidCategorical i ∧
    1 ≤ i.time_in_hospital ∧ i.time_in_hospital ≤ 14 ∧
    100 ≤ i.primary_dx ∧ i.primary_dx ≤ 999 ∧
    1 ≤ i.num_meds ∧ i.num_meds ≤ 30 ∧
    0 ≤ i.num_procedures ∧ i.num_procedures ≤ 6 ∧
    0 ≤ i.prior_inpatient ∧ i.prior_inpatient ≤ 10

instance (i : ClinicalInput) : Decidable (ValidInput i) := by
  unfold ValidInput; infer_instance

/-- `age_map` of `map_inputs_to_features` (`app.py` lines 71-74). -/
def age_map : List (String × ℚ) :=
  [("[40-50)", 45), ("[50-60)", 55), ("[60-70)", 65),
   ("[70-80)", 75), ("[80-90)", 85), ("[90-100)", 95)]

/-- `discharge_map` of `map_inputs_to_features` (`app.py` lines 76-78). -/
def discharge_map : List (String × ℚ) :=
  [("Home", 1), ("Rehab", 3), ("Skilled Nursing", 5), ("Other", 6)]

/-- `a1c_map` of `map_inputs_to_features` (`app.py` line 80). -/
def a1c_map : List (String × ℚ) := [("Norm", 0), (">7", 1), (">8", 2)]

/-- `insulin_map` of `map_inputs_to_features` (`app.py` line 82). -/
def insulin_map : List (String × ℚ) :=
  [("No", 0), ("Steady", 1), ("Up", 2), ("Down", 3)]

/-- `change_map` of `map_inputs_to_features` (`app.py` line 84). -/
def change_map : List (String × ℚ) := [("Yes", 1), ("No", 0)]

/-- The 25 column names of the single-row dataframe, in the order of the
dict literal of `map_inputs_to_features` (`app.py` lines 87-113). -/
def featureNames : List String :=
  ["age", "race", "gender", "time_in_hospital", "num_lab_procedures",
   "num_procedures", "num_medications", "number_outpatient",
   "number_inpatient", "number_emergency", "admission_type_id",
   "discharge_disposition_id", "admission_source_id", "diag_1", "diag_2",
   "diag_3", "A1Cresult", "diabetesMed", "insulin", "change",
   "had_prior_visit", "total_visits", "procedure_per_day",
   "age_group_numeric", "gender_race_combo"]

/-- `map_inputs_to_features` (`app.py` lines 70-115): builds the single-row
dataframe from the form inputs. The five dict subscripts of the source are
`List.lookup`s; any failed lookup (Python `KeyError`) yields `none`. -/
def map_inputs_to_features (i : ClinicalInput) : Option (List (String × FValue)) := do
  let dd ← List.lookup i.discharge discharge_map
  let av ← List.lookup i.a1c a1c_map
  let iv ← List.lookup i.insulin_status insulin_map
  let cv ← List.lookup i.medication_change change_map
  let agv ← List.lookup i.age age_map
  pure
    [("age", FValue.str i.age),
     ("race", FValue.num 0),
     ("gender", FValue.num 0),
     ("time_in_hospital", FValue.num (i.time_in_hospital : ℚ)),
     ("num_lab_procedures", FValue.num 40),
     ("num_procedures", FValue.num (i.num_procedures : ℚ)),
     ("num_medications", FValue.num (i.num_meds : ℚ)),
     ("number_outpatient", FValue.num 0),
     ("number_inpatient", FValue.num (i.prior_inpatient : ℚ)),
     ("number_emergency", FValue.num 0),
     ("admission_type_id", FValue.num 1),
     ("discharge_disposition_id", FValue.num dd),
     ("admission_source_id", FValue.num 1),
     ("diag_1", FValue.num (i.primary_dx : ℚ)),
     ("diag_2", FValue.num 250),
     ("diag_3", FValue.num 250),
     ("A1Cresult", FValue.num av),
     ("diabetesMed", FValue.num 1),
     ("insulin", FValue.num iv),
     ("change", FValue.num cv),
     ("had_prior_visit", FValue.num (if 0 < i.prior_inpatient then 1 else 0)),
     ("total_visits", FValue.num (i.prior_inpatient : ℚ)),
     ("procedure_per_day",
        FValue.num ((i.num_procedures : ℚ) / ((max i.time_in_hospital 1 : ℤ) : ℚ))),
     ("age_group_numeric", FValue.num agv),
     ("gender_race_combo", FValue.num 0)]

/-- Python `int(x)`: truncation toward zero. -/
def pyInt (q : ℚ) : ℤ := if 0 ≤ q then ⌊q⌋ else ⌈q⌉

/-- `risk_index = int(prob * 100)` (`app.py` line 126). -/
def risk_index (p : ℚ) : ℤ := pyInt (p * 100)

/-- The if/elif/else chain of `app.py` lines 131-142: the risk tier, the
display color and the advisory string chosen from the risk index. -/
def classify (ri : ℤ) : String × String × String :=
  if ri < 30 then
    ("LOW", "green", "Continue routine follow-up and outpatient care.")
  else if ri < 60 then
    ("MEDIUM", "orange", "Consider enhanced discharge planning and close follow-up.")
  else
    ("HIGH", "red", "Recommend intensive transitional care and early follow-up within 7 days.")

/-- `risk_level` assigned by the chain of `app.py` lines 131-142. -/
def risk_level (ri : ℤ) : String := (classify ri).1

/-- `advice` assigned by the chain of `app.py` lines 131-142. -/
def advice (ri : ℤ) : String := (classify ri).2.2

/-- Order of the tiers, LOW < MEDIUM < HIGH, used to state monotonicity. -/
def tierRank (t : String) : ℕ := if t = "LOW" then 0 else if t = "MEDIUM" then 1 else 2

/-- A concrete form submission: the default value of every control. -/
def sampleInput : ClinicalInput :=
  { age := "[40-50)", time_in_hospital := 4, a1c := "Norm", primary_dx := 250,
    num_meds := 10, num_procedures := 1, prior_inpatient := 0,
    discharge := "Home", medication_change := "No", insulin_status := "No" }

section Lemmas

/-- Successful lookups determine the encoder's output. -/
lemma map_inputs_eq (i : ClinicalInput) (dd av iv cv agv : ℚ)
    (h1 : List.lookup i.discharge discharge_map = some dd)
    (h2 : List.lookup i.a1c a1c_map = some av)
    (h3 : List.lookup i.insulin_status insulin_map = some iv)
    (h4 : List.lookup i.medication_change change_map = some cv)
    (h5 : List.lookup i.age age_map = some agv) :
    map_inputs_to_features i = some
      [("age", FValue.str i.age),
       ("race", FValue.num 0),
       ("gender", FValue.num 0),
       ("time_in_hospital", FValue.num (i.time_in_hospital : ℚ)),
       ("num_lab_procedures", FValue.num 40),
       ("num_procedures", FValue.num (i.num_procedures : ℚ)),
       ("num_medications", FValue.num (i.num_meds : ℚ)),
       ("number_outpatient", FValue.num 0),
       ("number_inpatient", FValue.num (i.prior_inpatient : ℚ)),
       ("number_emergency", FValue.num 0),
       ("admission_type_id", FValue.num 1),
       ("discharge_disposition_id", FValue.num dd),
       ("admission_source_id", FValue.num 1),
       ("diag_1", FValue.num (i.primary_dx : ℚ)),
       ("diag_2", FValue.num 250),
       ("diag_3", FValue.num 250),
       ("A1Cresult", FValue.num av),
       ("diabetesMed", FValue.num 1),
       ("insulin", FValue.num iv),
       ("change", FValue.num cv),
       ("had_prior_visit", FValue.num (if 0 < i.prior_inpatient then 1 else 0)),
       ("total_visits", FValue.num (i.prior_inpatient : ℚ)),
       ("procedure_per_day",
          FValue.num ((i.num_procedures : ℚ) / ((max i.time_in_hospital 1 : ℤ) : ℚ))),
       ("age_group_numeric", FValue.num agv),
       ("gender_race_combo", FValue.num 0)] := by
  simp [map_inputs_to_features, h1, h2, h3, h4, h5]

/-- A member of the age domain has an entry in `age_map`. -/
lemma lookup_age (s : String) (h : s ∈ ageDomain) :
    ∃ v, List.lookup s age_map = some v := by
  simp only [ageDomain, List.mem_cons, List.not_mem_nil, or_false] at h
  rcases h with rfl | rfl | rfl | rfl | rfl | rfl <;> exact ⟨_, rfl⟩

/-- A member of the A1C domain has an entry in `a1c_map`. -/
lemma lookup_a1c (s : String) (h : s ∈ a1cDomain) :
    ∃ v, List.lookup s a1c_map = some v := by
  simp only [a1cDomain, List.mem_cons, List.not_mem_nil, or_false] at h
  rcases h with rfl | rfl | rfl <;> exact ⟨_, rfl⟩

/-- A member of the discharge domain has an entry in `discharge_map`. -/
lemma lookup_discharge (s : String) (h : s ∈ dischargeDomain) :
    ∃ v, List.lookup s discharge_map = some v := by
  simp only [dischargeDomain, List.mem_cons, List.not_mem_nil, or_false] at h
  rcases h with rfl | rfl | rfl | rfl <;> exact ⟨_, rfl⟩

/-- A member of the change domain has an entry in `change_map`. -/
lemma lookup_change (s : String) (h : s ∈ changeDomain) :
    ∃ v, List.lookup s change_map = some v := by
  simp only [changeDomain, List.mem_cons, List.not_mem_nil, or_false] at h
  rcases h with rfl | rfl <;> exact ⟨_, rfl⟩

/-- A member of the insulin domain has an entry in `insulin_map`. -/
lemma lookup_insulin (s : String) (h : s ∈ insulinDomain) :
    ∃ v, List.lookup s insulin_map = some v := by
  simp only [insulinDomain, List.mem_cons, List.not_mem_nil, or_false] at h
  rcases h with rfl | rfl | rfl | rfl <;> exact ⟨_, rfl⟩

end Lemmas

section Classifier

/-- The risk index is monotone in the probability on the nonnegative range. -/
lemma risk_index_mono (p q : ℚ) (h0 : 0 ≤ p) (h : p ≤ q) :
    risk_index p ≤ risk_index q := by
  unfold risk_index pyInt
  have hp : 0 ≤ p * 100 := by positivity
  have hq : 0 ≤ q * 100 := le_trans hp (by nlinarith)
  rw [if_pos hp, if_pos hq]
  exact Int.floor_le_floor (by nlinarith)

/-- The tier rank is monotone in the risk index. -/
lemma rank_level_mono (a b : ℤ) (h : a ≤ b) :
    tierRank (risk_level a) ≤ tierRank (risk_level b) := by
  unfold tierRank risk_level classify
  split_ifs <;> simp_all <;> omega

/-- C2 counterexample: at probability 0.999 the code computes
`risk_index = int(99.9) = 99`, while `round(99.9) = 100`, so the risk index
is not `round(p * 100)`. -/
theorem risk_index_ne_round_at_0999 :
    risk_index (999 / 1000) = 99 ∧
    round (((999 : ℚ) / 1000) * 100) = 100 ∧
    risk_index (999 / 1000) ≠ round (((999 : ℚ) / 1000) * 100) := by
  norm_num [risk_index, pyInt, round_eq]

/-- C2 amended: for every probability `p ∈ [0, 1]`, `risk_index p` is an
integer in `[0, 100]` equal to `⌊p * 100⌋` (Python `int` truncation, which
is the floor on nonnegative values), not to `round(p * 100)`. -/
theorem risk_index_floor_in_range (p : ℚ) (h0 : 0 ≤ p) (h1 : p ≤ 1) :
    risk_index p = ⌊p * 100⌋ ∧ 0 ≤ risk_index p ∧ risk_index p ≤ 100 := by
  have hp : 0 ≤ p * 100 := by positivity
  have heq : risk_index p = ⌊p * 100⌋ := by
    unfold risk_index pyInt; rw [if_pos hp]
  refine ⟨heq, ?_, ?_⟩
  · rw [heq]; exact Int.floor_nonneg.mpr hp
  · rw [heq]
    calc ⌊p * 100⌋ ≤ ⌊(100 : ℚ)⌋ := Int.floor_le_floor (by nlinarith)
    _ = 100 := by norm_num

/-- C2 witness: the amended statement at `p = 1/2`. -/
theorem risk_index_floor_in_range_witness :
    risk_index (1 / 2) = ⌊((1 : ℚ) / 2) * 100⌋ ∧
    0 ≤ risk_index (1 / 2) ∧ risk_index (1 / 2) ≤ 100 :=
  risk_index_floor_in_range (1 / 2) (by norm_num) (by norm_num)

/-- C3: the tier is assigned by the strict-upper-bound policy —
`risk_index < 30` gives LOW, `30 ≤ risk_index < 60` gives MEDIUM,
`risk_index ≥ 60` gives HIGH — and each tier carries its fixed advisory
string, with HIGH mapping to "Recommend intensive transitional care and
early follow-up within 7 days.". -/
theorem risk_level_policy (ri : ℤ) :
    (ri < 30 → risk_level ri = "LOW" ∧
      advice ri = "Continue routine follow-up and outpatient care.") ∧
    (30 ≤ ri → ri < 60 → risk_level ri = "MEDIUM" ∧
      advice ri = "Consider enhanced discharge planning and close follow-up.") ∧
    (60 ≤ ri → risk_level ri = "HIGH" ∧
      advice ri = "Recommend intensive transitional care and early follow-up within 7 days.") := by
  refine ⟨fun h => ?_, fun h1 h2 => ?_, fun h => ?_⟩
  · simp [risk_level, advice, classify, h]
  · simp [risk_level, advice, classify, h2, show ¬ri < 30 by omega]
  · simp [risk_level, advice, classify, show ¬ri < 30 by omega, show ¬ri < 60 by omega]

/-- C3 witness: the policy evaluated at risk index 75. -/
theorem risk_level_policy_witness :
    risk_level 75 = "HIGH" ∧
    advice 75 = "Recommend intensive transitional care and early follow-up within 7 days." :=
  (risk_level_policy 75).2.2 (by norm_num)

/-- C4 counterexample: at probability 0.30 the code computes
`risk_index = 30` and assigns tier MEDIUM, not LOW (30 fails the strict
bound `risk_index < 30`). -/
theorem tier_at_030_is_medium :
    risk_index (3 / 10) = 30 ∧
    risk_level (risk_index (3 / 10)) = "MEDIUM" ∧
    risk_level (risk_index (3 / 10)) ≠ "LOW" := by
  have h : risk_index (3 / 10) = 30 := by
    norm_num [risk_index, pyInt]
  refine ⟨h, ?_, ?_⟩ <;> rw [h] <;> simp [risk_level, classify]

/-- C4 amended: for probability `p = 0.30` the classifier computes
`risk_index = 30` and, under the strict-upper-bound policy the
implementation uses, assigns tier MEDIUM (30 is not `< 30`). -/
theorem boundary_030 :
    risk_index (3 / 10) = 30 ∧ risk_level 30 = "MEDIUM" := by
  constructor
  · norm_num [risk_index, pyInt]
  · simp [risk_level, classify]

/-- C5: the classifier is monotonic — for probabilities
`0 ≤ p1 < p2 ≤ 1` the tier of `p1` is never strictly above the tier of
`p2` in the order LOW < MEDIUM < HIGH. -/
theorem classifier_monotone (p1 p2 : ℚ) (h0 : 0 ≤ p1) (h12 : p1 < p2) (h1 : p2 ≤ 1) :
    tierRank (risk_level (risk_index p1)) ≤ tierRank (risk_level (risk_index p2)) :=
  rank_level_mono _ _ (risk_index_mono _ _ h0 h12.le)

/-- C5 witness: monotonicity at the pair `p1 = 1/10`, `p2 = 7/10`. -/
theorem classifier_monotone_witness :
    tierRank (risk_level (risk_index (1 / 10))) ≤
      tierRank (risk_level (risk_index (7 / 10))) :=
  classifier_monotone (1 / 10) (7 / 10) (by norm_num) (by norm_num) (by norm_num)

end Classifier

section Encoder

/-- C1 (failing input): at the form's default submission the encoder yields
a record with the 25 documented field names in the documented order, but the
"age" field holds the raw selectbox string "[40-50)", not a number — the
record is not all-numeric. -/
theorem age_field_holds_raw_string :
    ValidInput sampleInput ∧
    (map_inputs_to_features sampleInput).map (fun r => r.map Prod.fst) =
      some featureNames ∧
    (map_inputs_to_features sampleInput).map List.length = some 25 ∧
    (map_inputs_to_features sampleInput).map (List.lookup "age") =
      some (some (FValue.str "[40-50)")) :=
  ⟨by decide, rfl, rfl, rfl⟩

/-- C6: for a nonnegative prior-inpatient count, the encoded
`had_prior_visit` field equals 1 iff the count is positive, and equals 0
otherwise. -/
theorem had_prior_visit_iff (i : ClinicalInput) (h : ValidCategorical i)
    (hn : 0 ≤ i.prior_inpatient) :
    ∃ r, map_inputs_to_features i = some r ∧
      (List.lookup "had_prior_visit" r = some (FValue.num 1) ↔
        0 < i.prior_inpatient) ∧
      (¬0 < i.prior_inpatient →
        List.lookup "had_prior_visit" r = some (FValue.num 0)) := by
  obtain ⟨ha, hc, hd, hm, hi⟩ := h
  obtain ⟨agv, hag⟩ := lookup_age _ ha
  obtain ⟨av, hav⟩ := lookup_a1c _ hc
  obtain ⟨dd, hdd⟩ := lookup_discharge _ hd
  obtain ⟨cv, hcv⟩ := lookup_change _ hm
  obtain ⟨iv, hiv⟩ := lookup_insulin _ hi
  refine ⟨_, map_inputs_eq i dd av iv cv agv hdd hav hiv hcv hag, ?_, ?_⟩
  · show some (FValue.num (if 0 < i.prior_inpatient then 1 else 0)) =
      some (FValue.num 1) ↔ 0 < i.prior_inpatient
    constructor
    · intro he
      by_contra hp
      rw [if_neg hp] at he
      exact (by norm_num : (0 : ℚ) ≠ 1) (FValue.num.inj (Option.some.inj he))
    · intro hp; rw [if_pos hp]
  · intro hp
    show some (FValue.num (if 0 < i.prior_inpatient then 1 else 0)) =
      some (FValue.num 0)
    rw [if_neg hp]

/-- C6 witness: the property at the default submission (count 0). -/
theorem had_prior_visit_iff_witness :
    ∃ r, map_inputs_to_features sampleInput = some r ∧
      (List.lookup "had_prior_visit" r = some (FValue.num 1) ↔
        0 < sampleInput.prior_inpatient) ∧
      (¬0 < sampleInput.prior_inpatient →
        List.lookup "had_prior_visit" r = some (FValue.num 0)) :=
  had_prior_visit_iff sampleInput (by decide) (by decide)

/-- C7: the encoded `procedure_per_day` equals the procedure count divided
by `max(length-of-stay, 1)`, and that denominator is never zero (even at
length-of-stay 0). -/
theorem procedure_per_day_safe (i : ClinicalInput) (h : ValidCategorical i) :
    ∃ r, map_inputs_to_features i = some r ∧
      List.lookup "procedure_per_day" r =
        some (FValue.num
          ((i.num_procedures : ℚ) / ((max i.time_in_hospital 1 : ℤ) : ℚ))) ∧
      ((max i.time_in_hospital 1 : ℤ) : ℚ) ≠ 0 := by
  obtain ⟨ha, hc, hd, hm, hi⟩ := h
  obtain ⟨agv, hag⟩ := lookup_age _ ha
  obtain ⟨av, hav⟩ := lookup_a1c _ hc
  obtain ⟨dd, hdd⟩ := lookup_discharge _ hd
  obtain ⟨cv, hcv⟩ := lookup_change _ hm
  obtain ⟨iv, hiv⟩ := lookup_insulin _ hi
  refine ⟨_, map_inputs_eq i dd av iv cv agv hdd hav hiv hcv hag, rfl, ?_⟩
  have h1 : (1 : ℤ) ≤ max i.time_in_hospital 1 := le_max_right _ _
  intro hzero
  rw [Int.cast_eq_zero] at hzero
  omega

/-- C7 witness: the property at a submission with length-of-stay 0 (below
the UI minimum, exercising the divide-by-zero guard). -/
theorem procedure_per_day_safe_witness :
    ∃ r, map_inputs_to_features
        { sampleInput with time_in_hospital := 0, num_procedures := 3 } = some r ∧
      List.lookup "procedure_per_day" r =
        some (FValue.num
          (((3 : ℤ) : ℚ) / ((max (0 : ℤ) 1 : ℤ) : ℚ))) ∧
      ((max (0 : ℤ) 1 : ℤ) : ℚ) ≠ 0 :=
  procedure_per_day_safe
    { sampleInput with time_in_hospital := 0, num_procedures := 3 } (by decide)

/-- C8: the encoder is deterministic — its output depends only on the
input, with no hidden state. -/
theorem encoder_deterministic (i j : ClinicalInput) (h : i = j) :
    map_inputs_to_features i = map_inputs_to_features j := by rw [h]

/-- C8 witness: determinism at the default submission. -/
theorem encoder_deterministic_witness :
    map_inputs_to_features sampleInput = map_inputs_to_features sampleInput :=
  encoder_deterministic sampleInput sampleInput rfl

/-- C9: over the declared input domain every lookup-table access succeeds
and the encoder is total (returns a record, raising no error). -/
theorem encoder_total (i : ClinicalInput) (h : ValidInput i) :
    (List.lookup i.discharge discharge_map).isSome ∧
    (List.lookup i.a1c a1c_map).isSome ∧
    (List.lookup i.insulin_status insulin_map).isSome ∧
    (List.lookup i.medication_change change_map).isSome ∧
    (List.lookup i.age age_map).isSome ∧
    (map_inputs_to_features i).isSome := by
  obtain ⟨⟨ha, hc, hd, hm, hi⟩, -⟩ := h
  obtain ⟨agv, hag⟩ := lookup_age _ ha
  obtain ⟨av, hav⟩ := lookup_a1c _ hc
  obtain ⟨dd, hdd⟩ := lookup_discharge _ hd
  obtain ⟨cv, hcv⟩ := lookup_change _ hm
  obtain ⟨iv, hiv⟩ := lookup_insulin _ hi
  refine ⟨by simp [hdd], by simp [hav], by simp [hiv], by simp [hcv],
    by simp [hag], ?_⟩
  rw [map_inputs_eq i dd av iv cv agv hdd hav hiv hcv hag]; rfl

/-- C9 witness: totality at the default submission. -/
theorem encoder_total_witness :
    (List.lookup sampleInput.discharge discharge_map).isSome ∧
    (List.lookup sampleInput.a1c a1c_map).isSome ∧
    (List.lookup sampleInput.insulin_status insulin_map).isSome ∧
    (List.lookup sampleInput.medication_change change_map).isSome ∧
    (List.lookup sampleInput.age age_map).isSome ∧
    (map_inputs_to_features sampleInput).isSome :=
  encoder_total sampleInput (by decide)

/-- C10: the fields not collected from the user are filled with the same
fixed constants for every input: race = 0, gender = 0,
num_lab_procedures = 40, number_outpatient = 0, number_emergency = 0,
admission_type_id = 1, admission_source_id = 1, diag_2 = 250, diag_3 = 250,
diabetesMed = 1, gender_race_combo = 0. -/
theorem constant_fields (i : ClinicalInput) (h : ValidCategorical i) :
    ∃ r, map_inputs_to_features i = some r ∧
      List.lookup "race" r = some (FValue.num 0) ∧
      List.lookup "gender" r = some (FValue.num 0) ∧
      List.lookup "num_lab_procedures" r = some (FValue.num 40) ∧
      List.lookup "number_outpatient" r = some (FValue.num 0) ∧
      List.lookup "number_emergency" r = some (FValue.num 0) ∧
      List.lookup "admission_type_id" r = some (FValue.num 1) ∧
      List.lookup "admission_source_id" r = some (FValue.num 1) ∧
      List.lookup "diag_2" r = some (FValue.num 250) ∧
      List.lookup "diag_3" r = some (FValue.num 250) ∧
      List.lookup "diabetesMed" r = some (FValue.num 1) ∧
      List.lookup "gender_race_combo" r = some (FValue.num 0) := by
  obtain ⟨ha, hc, hd, hm, hi⟩ := h
  obtain ⟨agv, hag⟩ := lookup_age _ ha
  obtain ⟨av, hav⟩ := lookup_a1c _ hc
  obtain ⟨dd, hdd⟩ := lookup_discharge _ hd
  obtain ⟨cv, hcv⟩ := lookup_change _ hm
  obtain ⟨iv, hiv⟩ := lookup_insulin _ hi
  exact ⟨_, map_inputs_eq i dd av iv cv agv hdd hav hiv hcv hag,
    rfl, rfl, rfl, rfl, rfl, rfl, rfl, rfl, rfl, rfl, rfl⟩

/-- C10 witness: the constant fields at the default submission. -/
theorem constant_fields_witness :
    ∃ r, map_inputs_to_features sampleInput = some r ∧
      List.lookup "race" r = some (FValue.num 0) ∧
      List.lookup "gender" r = some (FValue.num 0) ∧
      List.lookup "num_lab_procedures" r = some (FValue.num 40) ∧
      List.lookup "number_outpatient" r = some (FValue.num 0) ∧
      List.lookup "number_emergency" r = some (FValue.num 0) ∧
      List.lookup "admission_type_id" r = some (FValue.num 1) ∧
      List.lookup "admission_source_id" r = some (FValue.num 1) ∧
      List.lookup "diag_2" r = some (FValue.num 250) ∧
      List.lookup "diag_3" r = some (FValue.num 250) ∧
      List.lookup "diabetesMed" r = some (FValue.num 1) ∧
      List.lookup "gender_race_combo" r = some (FValue.num 0) :=
  constant_fields sampleInput (by decide)

end Encoder
